import Mathlib

/-!
Shallow embedding of src/main.go of the pwv_wrapper_service repository:
a local HTTP gateway that fetches a secret by invoking the vault CLI
(PWVCLICMD, lines 145-206) and classifies the process outcome into an
HTTP status and JSON body (route handler, lines 238-314).

Modelling choices:
- Machine integers: Go int is modelled as Int (exit codes), uint64 / uint16
  as Nat; no arithmetic in the source can overflow in the claims' scope.
- The race in PWVCLICMD between the timer and the wait goroutine is
  modelled by a RaceEvent input saying which branch of the select fired
  and with what data; captured stdout/stderr buffers and the measured
  elapsed time are likewise inputs, since they come from the OS.
- Go variable shadowing is modelled faithfully: in the select statement,
  the clause on line 186 reads "case err := <-done:", which declares a NEW
  local err shadowing the named return value err of PWVCLICMD, so every
  assignment inside that clause is lost and the function returns err = nil
  whenever the process finished before the timer.  Similarly the kill
  error on lines 181-183 is assigned to an if-scoped local and lost.
-/

/-- Character class of the account-name validator regular expression
on line 67 of main.go: an ASCII digit, lower or upper case letter,
hyphen or underscore. -/
def isAccountNameChar (c : Char) : Bool :=
  decide ('0' ≤ c ∧ c ≤ '9') || decide ('a' ≤ c ∧ c ≤ 'z') ||
    decide ('A' ≤ c ∧ c ≤ 'Z') || c == '-' || c == '_'

/-- Line 67: regexp.MustCompile of the anchored pattern, one or more
characters of the class, matched against the whole account name. -/
def isValidAccount_name (s : String) : Bool :=
  !s.data.isEmpty && s.data.all isAccountNameChar

/-- Lines 69-83: the configuration structure loaded from config.yaml. -/
structure Configuration where
  PWVHost : String
  PWVCLIPasswordSDK_CMD : String
  PWVCLIPasswordSDK_CMD_timeout : Nat
  PWVWSUAccountName : String
  PWVUnmanagedSafe : String
  PWVUnmanagedPlatformID : String
  PWVManagedPlatformID : String
  PWVWSUSafe : String
  PWVAppID : String
  PWVUsername : String
  PWVManagedSafe : String
  RouterAddress : String
  RouterSocket : Nat
  deriving Repr, DecidableEq

/-- Lines 85-91: the Result structure produced by PWVCLICMD. -/
structure Result where
  ok : Bool
  stdout : String
  stderr : String
  exit_code : Int
  elapsed : Nat
  deriving Repr, DecidableEq

/-- The zero value of Result (Go zero-initialises both the named return
r of PWVCLICMD and the handler-local var r on line 240). -/
def zeroResult : Result :=
  { ok := false, stdout := "", stderr := "", exit_code := 0, elapsed := 0 }

/-- Whitespace as trimmed by strings.TrimSpace (unicode.IsSpace): the
Latin-1 white space characters.  Unicode space-category characters above
Latin-1 are not needed by any claim and are omitted. -/
def goIsSpace (c : Char) : Bool :=
  c == ' ' || c == '\t' || c == '\n' || c == '\x0b' || c == '\x0c' ||
    c == '\r' || c.toNat == 0x85 || c.toNat == 0xa0

/-- strings.TrimSpace: drop leading and trailing white space. -/
def trimSpace (s : String) : String :=
  String.mk (((s.data.dropWhile goIsSpace).reverse.dropWhile goIsSpace).reverse)

/-- The error value delivered on the done channel by cmd.Wait
(lines 176-178): nil on a clean exit (modelled by Option.none around this
type), an exec.ExitError carrying the child's wait status, or any other
OS-level error (including the wait error returned when Start failed,
such as the spawn failure case). -/
inductive WaitFailure where
  | exitError (exit_status : Int)
  | otherError (msg : String)
  deriving Repr, DecidableEq

/-- Which branch of the select on lines 179-198 fired: the timer
(line 180; kill_failed records whether cmd.Process.Kill returned an
error on line 181), or the wait goroutine (line 186). -/
inductive RaceEvent where
  | timeout (kill_failed : Bool)
  | done (w : Option WaitFailure)
  deriving Repr, DecidableEq

/-- Lines 145-206: PWVCLICMD, given the raced event, the raw captured
stdout/stderr buffers and the measured elapsed time.  Returns (r, err)
mirroring the named return values.  The argument-vector construction of
lines 156-160 is modelled separately by pwv_args below.

Faithful to the source shadowing: in the done branch (line 186) the
clause-local err shadows the named return, so the returned err stays nil
there; in the timeout branch the kill error (lines 181-183) is lost and
the named return is set to the timeout error on line 184. -/
def PWVCLICMD (ev : RaceEvent) (raw_stdout raw_stderr : String)
    (elapsed_ms : Nat) : Result × Option String :=
  let step : Result × Option String :=
    match ev with
    | .timeout _kill_failed =>
      (zeroResult, some "process killed as timeout reached")
    | .done w =>
      let r1 : Result :=
        match w with
        | some (.exitError code) => { zeroResult with exit_code := code }
        | _ => zeroResult
      let r2 : Result := if w.isNone then { r1 with ok := true } else r1
      (r2, none)
  ({ step.1 with
      stdout := trimSpace raw_stdout,
      stderr := trimSpace raw_stderr,
      elapsed := elapsed_ms },
   step.2)

/-- Lines 156-159: the argument vector handed to exec.Command after the
executable path. -/
def pwv_args (pwv_appID pwv_safe account_name : String) : List String :=
  ["GetPassword",
   "-p", "AppDescs.AppID=" ++ pwv_appID,
   "-p", "Query=Safe=" ++ pwv_safe ++ ";Folder=root;Object=" ++ account_name,
   "-o", "Password"]

/-- The JSON response body written by the handler: each field is a JSON
string or null. -/
structure Body where
  result : Option String
  error : Option String
  stderr : Option String
  deriving Repr, DecidableEq

/-- Lines 279-304: map the invocation result (r, err) to the HTTP status
code and body, in source order: err non-nil first, then exit_code > 0,
otherwise 200 with a null error. -/
def classify (r : Result) (err : Option String) : Nat × Body :=
  match err with
  | some e =>
    (424, { result := some r.stdout,
            error := some ("The process did NOT run successfully " ++ e),
            stderr := some r.stderr })
  | none =>
    if r.exit_code > 0 then
      (424, { result := some r.stdout,
              error := some ("According the return code [" ++ toString r.exit_code
                ++ "] the process did NOT run successfully"),
              stderr := some r.stderr })
    else
      (200, { result := some r.stdout, error := none, stderr := some r.stderr })

/-- The audit log line written at lines 308-312, one per request:
exit code, elapsed time, SUCCESS or FAILED, the stdout field (redacted to
a run of asterisks on success, the raw stdout on failure), the stderr
field, and on failure the error value. -/
structure AuditLine where
  exit_code : Int
  elapsed : Nat
  success : Bool
  stdout_field : String
  stderr_field : String
  error_field : Option String
  deriving Repr, DecidableEq

/-- Lines 308-312: build the audit log line from (r, err). -/
def auditLine (r : Result) (err : Option String) : AuditLine :=
  if r.ok then
    { exit_code := r.exit_code, elapsed := r.elapsed, success := true,
      stdout_field := String.mk (List.replicate r.stdout.data.length '*'),
      stderr_field := r.stderr, error_field := none }
  else
    { exit_code := r.exit_code, elapsed := r.elapsed, success := false,
      stdout_field := r.stdout, stderr_field := r.stderr, error_field := err }

/-- Lines 251-256: the switch on the safe path parameter; with no
default case, any other token leaves pwv_safe at its zero value "". -/
def resolve_pwv_safe (cfg : Configuration) (safe : String) : String :=
  if safe = "managed" then cfg.PWVManagedSafe
  else if safe = "unmanaged" then cfg.PWVUnmanagedSafe
  else ""

/-- Everything one request produces: the HTTP status and JSON body, the
argv of the spawned child process (none when no process was spawned),
and the audit log lines written. -/
structure RouteResult where
  status : Nat
  body : Body
  spawnArgs : Option (List String)
  audit : List AuditLine
  deriving Repr, DecidableEq

/-- Lines 238-314: the GET /fetch/:safe/:account_name handler.  Validation
order as in the source: resolved safe name first (empty means reject),
then the account-name pattern, then the invocation; all paths fall
through to the single Response point that logs one audit line. -/
def route (cfg : Configuration) (safe account_name : String) (ev : RaceEvent)
    (raw_stdout raw_stderr : String) (elapsed_ms : Nat) : RouteResult :=
  let pwv_safe := resolve_pwv_safe cfg safe
  if pwv_safe = "" then
    { status := 400,
      body := { result := none,
                error := some "Please specify a valid safe either \"managed\" or \"unmanaged\"",
                stderr := none },
      spawnArgs := none,
      audit := [auditLine zeroResult none] }
  else if isValidAccount_name account_name ≠ true then
    { status := 400,
      body := { result := none,
                error := some "Please specify a valid account_name",
                stderr := none },
      spawnArgs := none,
      audit := [auditLine zeroResult none] }
  else
    let p := PWVCLICMD ev raw_stdout raw_stderr elapsed_ms
    let sb := classify p.1 p.2
    { status := sb.1, body := sb.2,
      spawnArgs := some (cfg.PWVCLIPasswordSDK_CMD ::
        pwv_args cfg.PWVAppID pwv_safe account_name),
      audit := [auditLine p.1 p.2] }

/-- A concrete filled-in configuration used to evaluate the route on
concrete requests. -/
def cfgA : Configuration :=
  { PWVHost := "", PWVCLIPasswordSDK_CMD := "/opt/CLIPasswordSDK",
    PWVCLIPasswordSDK_CMD_timeout := 20000, PWVWSUAccountName := "",
    PWVUnmanagedSafe := "USAFE", PWVUnmanagedPlatformID := "",
    PWVManagedPlatformID := "", PWVWSUSafe := "", PWVAppID := "appid",
    PWVUsername := "", PWVManagedSafe := "MSAFE",
    RouterAddress := "127.0.0.1", RouterSocket := 3000 }

/-- C1: evaluating the code at the failing input.  A spawn failure
(executable missing) makes cmd.Start fail silently on line 172 and
cmd.Wait deliver the non-ExitError wait error on the done channel; the
clause-local err of line 186 shadows the named return, so PWVCLICMD
returns err = nil and the handler answers 200 with error = null instead
of the 424 the specification requires for SpawnError/WaitError. -/
theorem C1_wait_error_answered_200 :
    route cfgA "managed" "svc-account01"
        (.done (some (.otherError "exec: not started"))) "" "" 5 =
      { status := 200,
        body := { result := some "", error := none, stderr := some "" },
        spawnArgs := some ["/opt/CLIPasswordSDK", "GetPassword",
          "-p", "AppDescs.AppID=appid",
          "-p", "Query=Safe=MSAFE;Folder=root;Object=svc-account01",
          "-o", "Password"],
        audit := [{ exit_code := 0, elapsed := 5, success := false,
                    stdout_field := "", stderr_field := "",
                    error_field := none }] } := by
  rfl

/-- C2: whenever the timer fires before the child terminates, the outcome
classifies to 424 with the timeout message, regardless of the partially
captured stdout, and a failed kill produces exactly the same invocation
result as a successful one (the kill error is not the primary reason). -/
theorem C2_timeout_classifies_424 (kf : Bool) (ro re : String) (el : Nat) :
    (classify (PWVCLICMD (.timeout kf) ro re el).1
        (PWVCLICMD (.timeout kf) ro re el).2).1 = 424 ∧
    (classify (PWVCLICMD (.timeout kf) ro re el).1
        (PWVCLICMD (.timeout kf) ro re el).2).2.error =
      some "The process did NOT run successfully process killed as timeout reached" ∧
    PWVCLICMD (.timeout true) ro re el = PWVCLICMD (.timeout false) ro re el := by
  exact ⟨rfl, rfl, rfl⟩

/-- C2 witness: the timeout classification evaluated on a concrete
partially-captured stdout with a failed kill. -/
theorem C2_timeout_classifies_424_witness :
    (classify (PWVCLICMD (.timeout true) " par " "oops" 7).1
        (PWVCLICMD (.timeout true) " par " "oops" 7).2).1 = 424 ∧
    (classify (PWVCLICMD (.timeout true) " par " "oops" 7).1
        (PWVCLICMD (.timeout true) " par " "oops" 7).2).2.error =
      some "The process did NOT run successfully process killed as timeout reached" ∧
    PWVCLICMD (.timeout true) " par " "oops" 7 =
      PWVCLICMD (.timeout false) " par " "oops" 7 :=
  C2_timeout_classifies_424 true " par " "oops" 7

/-- Helper: the classifier only ever yields status 200 or 424. -/
theorem classify_status_cases (r : Result) (err : Option String) :
    (classify r err).1 = 200 ∨ (classify r err).1 = 424 := by
  rcases err with _ | e
  · by_cases h : r.exit_code > 0
    · right; simp [classify, h]
    · left; simp [classify, h]
  · right; rfl

/-- C3: every request gets an HTTP response; whichever validation branch
or invocation outcome occurs, the handler produces a status that is one
of 200, 400 or 424 (every per-request failure becomes a response, none
escapes the handler). -/
theorem C3_every_request_gets_response (cfg : Configuration)
    (safe acct : String) (ev : RaceEvent) (ro re : String) (el : Nat) :
    (route cfg safe acct ev ro re el).status = 200 ∨
    (route cfg safe acct ev ro re el).status = 400 ∨
    (route cfg safe acct ev ro re el).status = 424 := by
  simp only [route]
  split
  · exact Or.inr (Or.inl rfl)
  · split
    · exact Or.inr (Or.inl rfl)
    · rcases classify_status_cases (PWVCLICMD ev ro re el).1
        (PWVCLICMD ev ro re el).2 with h | h
      · exact Or.inl h
      · exact Or.inr (Or.inr h)

/-- C3 witness: a concrete timed-out request still yields a response. -/
theorem C3_every_request_gets_response_witness :
    (route cfgA "managed" "svc" (.timeout true) "" "" 9).status = 200 ∨
    (route cfgA "managed" "svc" (.timeout true) "" "" 9).status = 400 ∨
    (route cfgA "managed" "svc" (.timeout true) "" "" 9).status = 424 :=
  C3_every_request_gets_response cfgA "managed" "svc" (.timeout true) "" "" 9

/-- C4: for every account name that is empty or contains a character
outside the class 0-9a-zA-Z hyphen underscore, and every valid safe
selector, the request is answered 400 and no vault CLI process is
spawned. -/
theorem C4_invalid_account_rejected (cfg : Configuration)
    (safe acct : String) (ev : RaceEvent) (ro re : String) (el : Nat)
    (_hsafe : safe = "managed" ∨ safe = "unmanaged")
    (hacct : acct = "" ∨ ∃ c ∈ acct.data, isAccountNameChar c = false) :
    (route cfg safe acct ev ro re el).status = 400 ∧
    (route cfg safe acct ev ro re el).spawnArgs = none := by
  have hv : isValidAccount_name acct = false := by
    cases hb : acct.data.all isAccountNameChar with
    | false => simp [isValidAccount_name, hb]
    | true =>
      rcases hacct with h | ⟨c, hc, hbad⟩
      · subst h; rfl
      · have hgood := List.all_eq_true.mp hb c hc
        rw [hbad] at hgood
        exact Bool.noConfusion hgood
  simp only [route]
  split
  · exact ⟨rfl, rfl⟩
  · split
    · exact ⟨rfl, rfl⟩
    · rename_i h2
      have h3 : isValidAccount_name acct = true := not_ne_iff.mp h2
      rw [hv] at h3
      exact Bool.noConfusion h3

/-- C4 witness: the spec's own example, a shell-metacharacter account
name on the managed safe, is rejected without a spawn. -/
theorem C4_invalid_account_rejected_witness :
    ((cfgA.PWVManagedSafe = "MSAFE") ∧
      (∃ c ∈ ("admin;rm -rf").data, isAccountNameChar c = false)) ∧
    (route cfgA "managed" "admin;rm -rf" (.done none) "" "" 0).status = 400 ∧
    (route cfgA "managed" "admin;rm -rf" (.done none) "" "" 0).spawnArgs = none :=
  ⟨⟨rfl, ⟨';', by decide, by decide⟩⟩,
   C4_invalid_account_rejected cfgA "managed" "admin;rm -rf" (.done none) "" "" 0
     (Or.inl rfl) (Or.inr ⟨';', by decide, by decide⟩)⟩

/-- C5: any safe token other than managed or unmanaged is answered 400
with no process spawned; and a valid token whose configured safe name is
empty produces exactly the same response as an invalid token. -/
theorem C5_invalid_safe_rejected (cfg : Configuration)
    (safe acct : String) (ev : RaceEvent) (ro re : String) (el : Nat)
    (h1 : safe ≠ "managed") (h2 : safe ≠ "unmanaged") :
    (route cfg safe acct ev ro re el).status = 400 ∧
    (route cfg safe acct ev ro re el).spawnArgs = none ∧
    (cfg.PWVManagedSafe = "" →
      route cfg "managed" acct ev ro re el = route cfg safe acct ev ro re el) ∧
    (cfg.PWVUnmanagedSafe = "" →
      route cfg "unmanaged" acct ev ro re el = route cfg safe acct ev ro re el) := by
  have hres : resolve_pwv_safe cfg safe = "" := by
    simp [resolve_pwv_safe, h1, h2]
  refine ⟨?_, ?_, ?_, ?_⟩
  · simp [route, hres]
  · simp [route, hres]
  · intro hm; simp [route, resolve_pwv_safe, hres, hm, h1, h2]
  · intro hu; simp [route, resolve_pwv_safe, hres, hu, h1, h2]

/-- C5 witness: the spec's example token root is rejected, and with both
configured safe names empty the valid tokens produce the identical
response. -/
theorem C5_invalid_safe_rejected_witness :
    (route { cfgA with PWVManagedSafe := "", PWVUnmanagedSafe := "" }
        "root" "acct" (.done none) "" "" 0).status = 400 ∧
    (route { cfgA with PWVManagedSafe := "", PWVUnmanagedSafe := "" }
        "root" "acct" (.done none) "" "" 0).spawnArgs = none ∧
    route { cfgA with PWVManagedSafe := "", PWVUnmanagedSafe := "" }
        "managed" "acct" (.done none) "" "" 0 =
      route { cfgA with PWVManagedSafe := "", PWVUnmanagedSafe := "" }
        "root" "acct" (.done none) "" "" 0 ∧
    route { cfgA with PWVManagedSafe := "", PWVUnmanagedSafe := "" }
        "unmanaged" "acct" (.done none) "" "" 0 =
      route { cfgA with PWVManagedSafe := "", PWVUnmanagedSafe := "" }
        "root" "acct" (.done none) "" "" 0 := by
  have h := C5_invalid_safe_rejected
    { cfgA with PWVManagedSafe := "", PWVUnmanagedSafe := "" }
    "root" "acct" (.done none) "" "" 0 (by decide) (by decide)
  exact ⟨h.1, h.2.1, h.2.2.1 rfl, h.2.2.2 rfl⟩

/-- C6: for every validated input the child is spawned with exactly the
argument vector GetPassword -p AppDescs.AppID=appId -p
Query=Safe=safeName;Folder=root;Object=accountName -o Password, in this
order, after the executable path. -/
theorem C6_arg_vector_exact (cfg : Configuration)
    (safe acct : String) (ev : RaceEvent) (ro re : String) (el : Nat)
    (hsafe : (safe = "managed" ∧ cfg.PWVManagedSafe ≠ "") ∨
             (safe = "unmanaged" ∧ cfg.PWVUnmanagedSafe ≠ ""))
    (hacct : isValidAccount_name acct = true) :
    (route cfg safe acct ev ro re el).spawnArgs =
      some [cfg.PWVCLIPasswordSDK_CMD,
            "GetPassword",
            "-p", "AppDescs.AppID=" ++ cfg.PWVAppID,
            "-p", "Query=Safe=" ++ resolve_pwv_safe cfg safe ++
              ";Folder=root;Object=" ++ acct,
            "-o", "Password"] := by
  rcases hsafe with ⟨h, hne⟩ | ⟨h, hne⟩ <;> subst h <;>
    simp [route, resolve_pwv_safe, hne, hacct, pwv_args]

/-- C6 witness: a concrete validated request spawns the exact vector. -/
theorem C6_arg_vector_exact_witness :
    (isValidAccount_name "svc-account01" = true) ∧
    (route cfgA "managed" "svc-account01" (.done none) "" "" 0).spawnArgs =
      some [cfgA.PWVCLIPasswordSDK_CMD,
            "GetPassword",
            "-p", "AppDescs.AppID=" ++ cfgA.PWVAppID,
            "-p", "Query=Safe=" ++ resolve_pwv_safe cfgA "managed" ++
              ";Folder=root;Object=" ++ "svc-account01",
            "-o", "Password"] :=
  ⟨by decide,
   C6_arg_vector_exact cfgA "managed" "svc-account01" (.done none) "" "" 0
     (Or.inl ⟨rfl, by decide⟩) (by decide)⟩

/-- C7: every invocation result with succeeded = true and exit code 0
classifies to 200 with result = the trimmed stdout, a null error, and
stderr = the trimmed stderr. -/
theorem C7_success_classifies_200 (ev : RaceEvent) (ro re : String) (el : Nat)
    (hok : (PWVCLICMD ev ro re el).1.ok = true)
    (_hexit : (PWVCLICMD ev ro re el).1.exit_code = 0) :
    classify (PWVCLICMD ev ro re el).1 (PWVCLICMD ev ro re el).2 =
      (200, { result := some (trimSpace ro), error := none,
              stderr := some (trimSpace re) }) ∧
    (PWVCLICMD ev ro re el).1.stdout = trimSpace ro ∧
    (PWVCLICMD ev ro re el).1.stderr = trimSpace re := by
  cases ev with
  | timeout kf => exact Bool.noConfusion hok
  | done w =>
    cases w with
    | none => exact ⟨rfl, rfl, rfl⟩
    | some wf => cases wf <;> exact Bool.noConfusion hok

/-- C7 witness: a clean exit with padded stdout yields 200 and the
trimmed secret. -/
theorem C7_success_classifies_200_witness :
    ((PWVCLICMD (.done none) "  s3cr3t " " warn " 3).1.ok = true ∧
      (PWVCLICMD (.done none) "  s3cr3t " " warn " 3).1.exit_code = 0) ∧
    classify (PWVCLICMD (.done none) "  s3cr3t " " warn " 3).1
        (PWVCLICMD (.done none) "  s3cr3t " " warn " 3).2 =
      (200, { result := some (trimSpace "  s3cr3t "), error := none,
              stderr := some (trimSpace " warn ") }) ∧
    trimSpace "  s3cr3t " = "s3cr3t" ∧ trimSpace " warn " = "warn" :=
  ⟨⟨rfl, rfl⟩,
   (C7_success_classifies_200 (.done none) "  s3cr3t " " warn " 3 rfl rfl).1,
   by decide, by decide⟩

/-- C8: invariants of the invocation result: succeeded = true implies the
returned error is nil and the exit code is 0; a timeout outcome (with or
without a kill failure) and a spawn or wait failure outcome always have
succeeded = false. -/
theorem C8_result_invariants (ev : RaceEvent) (ro re : String) (el : Nat) :
    ((PWVCLICMD ev ro re el).1.ok = true →
      (PWVCLICMD ev ro re el).2 = none ∧
      (PWVCLICMD ev ro re el).1.exit_code = 0) ∧
    (∀ kf : Bool, (PWVCLICMD (.timeout kf) ro re el).1.ok = false) ∧
    (∀ m : String,
      (PWVCLICMD (.done (some (.otherError m))) ro re el).1.ok = false) ∧
    (∀ code : Int,
      (PWVCLICMD (.done (some (.exitError code))) ro re el).1.ok = false) := by
  refine ⟨?_, fun kf => rfl, fun m => rfl, fun code => rfl⟩
  intro hok
  cases ev with
  | timeout kf => exact Bool.noConfusion hok
  | done w =>
    cases w with
    | none => exact ⟨rfl, rfl⟩
    | some wf => cases wf <;> exact Bool.noConfusion hok

/-- C8 witness: the invariants evaluated on a clean exit, a timed-out,
a spawn-failed and a non-zero-exit invocation. -/
theorem C8_result_invariants_witness :
    ((PWVCLICMD (.done none) " x " "e" 2).1.ok = true) ∧
    ((PWVCLICMD (.done none) " x " "e" 2).2 = none ∧
      (PWVCLICMD (.done none) " x " "e" 2).1.exit_code = 0) ∧
    (PWVCLICMD (.timeout true) " x " "e" 2).1.ok = false ∧
    (PWVCLICMD (.done (some (.otherError "exec: not started"))) " x " "e" 2).1.ok
      = false ∧
    (PWVCLICMD (.done (some (.exitError 1))) " x " "e" 2).1.ok = false :=
  ⟨rfl,
   (C8_result_invariants (.done none) " x " "e" 2).1 rfl,
   (C8_result_invariants (.done none) " x " "e" 2).2.1 true,
   (C8_result_invariants (.done none) " x " "e" 2).2.2.1 "exec: not started",
   (C8_result_invariants (.done none) " x " "e" 2).2.2.2 1⟩

/-- C9 counterexample: on a failed invocation the audit line carries the
raw captured stdout literally, so the literal stdout value does appear in
a log line: a non-zero exit with partially captured stdout on a valid
request logs stdout_field = "partial-secret". -/
theorem C9_counterexample_failure_logs_stdout :
    (PWVCLICMD (.done (some (.exitError 1))) "partial-secret" "" 7).1.stdout =
      "partial-secret" ∧
    (route cfgA "managed" "svc" (.done (some (.exitError 1)))
        "partial-secret" "" 7).audit =
      [{ exit_code := 1, elapsed := 7, success := false,
         stdout_field := "partial-secret", stderr_field := "",
         error_field := none }] := by
  exact ⟨by decide, by decide⟩

/-- C9 amended: every request writes exactly one audit line, and the
line of a successful invocation records exit code and elapsed time and
replaces the stdout value by a run of asterisks of the same length, so
the literal stdout never appears in a success line; on failed
invocations the raw stdout is logged. -/
theorem C9_one_audit_line_success_redacted (cfg : Configuration)
    (safe acct : String) (ev : RaceEvent) (ro re : String) (el : Nat)
    (r : Result) (err : Option String) (hok : r.ok = true) :
    (route cfg safe acct ev ro re el).audit.length = 1 ∧
    (auditLine r err).success = true ∧
    (auditLine r err).stdout_field =
      String.mk (List.replicate r.stdout.data.length '*') ∧
    (auditLine r err).exit_code = r.exit_code ∧
    (auditLine r err).elapsed = r.elapsed ∧
    (∀ c ∈ (auditLine r err).stdout_field.data, c = '*') := by
  have hlen : (route cfg safe acct ev ro re el).audit.length = 1 := by
    simp only [route]
    split
    · rfl
    · split
      · rfl
      · rfl
  have hline : auditLine r err =
      { exit_code := r.exit_code, elapsed := r.elapsed, success := true,
        stdout_field := String.mk (List.replicate r.stdout.data.length '*'),
        stderr_field := r.stderr, error_field := none } := by
    simp [auditLine, hok]
  refine ⟨hlen, ?_, ?_, ?_, ?_, ?_⟩
  · rw [hline]
  · rw [hline]
  · rw [hline]
  · rw [hline]
  · intro c hc
    rw [hline] at hc
    exact List.eq_of_mem_replicate hc

/-- C9 amended witness: a concrete successful invocation logs one line
with six asterisks in place of the six-character secret. -/
theorem C9_one_audit_line_success_redacted_witness :
    (({ ok := true, stdout := "s3cr3t", stderr := "", exit_code := 0,
        elapsed := 3 } : Result).ok = true) ∧
    (route cfgA "managed" "svc" (.done none) "s3cr3t" "" 3).audit.length = 1 ∧
    (auditLine { ok := true, stdout := "s3cr3t", stderr := "",
                 exit_code := 0, elapsed := 3 } none).stdout_field =
      String.mk (List.replicate
        ("s3cr3t" : String).data.length '*') ∧
    (auditLine { ok := true, stdout := "s3cr3t", stderr := "",
                 exit_code := 0, elapsed := 3 } none).stdout_field = "******" :=
  ⟨rfl,
   (C9_one_audit_line_success_redacted cfgA "managed" "svc" (.done none)
      "s3cr3t" "" 3 { ok := true, stdout := "s3cr3t", stderr := "",
                      exit_code := 0, elapsed := 3 } none rfl).1,
   (C9_one_audit_line_success_redacted cfgA "managed" "svc" (.done none)
      "s3cr3t" "" 3 { ok := true, stdout := "s3cr3t", stderr := "",
                      exit_code := 0, elapsed := 3 } none rfl).2.2.1,
   by decide⟩

/-- C10 counterexample: the account name "-p" is accepted by the
validator, occurs as a standalone token of the argument vector, and the
full vector including the executable path has eight tokens, not seven. -/
theorem C10_counterexample_dash_p :
    isValidAccount_name "-p" = true ∧
    "-p" ∈ pwv_args "appid" "MSAFE" "-p" ∧
    List.length ("/opt/CLIPasswordSDK" :: pwv_args "appid" "MSAFE" "-p") = 8 := by
  refine ⟨by decide, ?_, rfl⟩
  exact List.Mem.tail _ (List.Mem.head _)

/-- C10 amended: for every account name the full vector (executable path
plus seven argument tokens) has exactly eight tokens; every token except
the Query token at index 4 of the argument list is independent of the
account name, and that token is the exact Query interpolation, so a
validated account name cannot add or alter argument positions (it can at
most textually coincide with a fixed token such as -p). -/
theorem C10_fixed_arg_shape (cmd appId safeName a b : String) :
    List.length (cmd :: pwv_args appId safeName a) = 8 ∧
    (pwv_args appId safeName a).eraseIdx 4 = (pwv_args appId safeName b).eraseIdx 4 ∧
    (pwv_args appId safeName a).get? 4 =
      some ("Query=Safe=" ++ safeName ++ ";Folder=root;Object=" ++ a) := by
  exact ⟨rfl, rfl, rfl⟩

/-- C10 amended witness: the fixed shape evaluated at the account names
-p and x. -/
theorem C10_fixed_arg_shape_witness :
    List.length ("/opt/CLIPasswordSDK" :: pwv_args "appid" "MSAFE" "-p") = 8 ∧
    (pwv_args "appid" "MSAFE" "-p").eraseIdx 4 =
      (pwv_args "appid" "MSAFE" "x").eraseIdx 4 ∧
    (pwv_args "appid" "MSAFE" "-p").get? 4 =
      some ("Query=Safe=" ++ "MSAFE" ++ ";Folder=root;Object=" ++ "-p") :=
  C10_fixed_arg_shape "/opt/CLIPasswordSDK" "appid" "MSAFE" "-p" "x"
